import Mathlib

/-!
Verification development for the hospital-recommender frontend's
origin-resolution and route-rendering session controller.

The definitions below are shallow embeddings of the JavaScript source:
  * `geocodeWithNominatim`     — src/utils/geocode.js (geocodeWithNominatim)
  * `geocodePlace`, `resolve`  — the origin-resolution fallback chain of the
    MapComponent variant kept (commented) in utils/geocode.js, lines 130-182:
    geolocation success/error callbacks with the accuracy threshold, hint
    geocoding and the static fallback coordinate
  * `runEffect`, `resolveFetch`, `sessStep`, `runTrace` — the session controller
    MapComponent (src/components/MapComponent.jsx, the variant with mapRef /
    routeLayerRef): its map effect body and the getRoute continuation, run as
    an event trace on an explicit session state.

JavaScript numbers are modelled as `JNum` (NaN or a rational); machine floats
are approximated by rationals, which is exact for every literal appearing in
the source and in the theorems below.
-/

/-- A JavaScript number as it matters here: NaN or a (rational) value.
Exponent-free decimal literals are represented exactly. -/
inductive JNum
  | nan
  | num (q : ℚ)
deriving DecidableEq

/-- One element of a Nominatim JSON-array response: the `lat` and `lon`
fields, each possibly absent (`none` models a missing field, on which
JavaScript property access yields `undefined`). -/
structure GeoEntry where
  lat : Option String
  lon : Option String
deriving DecidableEq

/-- Value of a digit list read in base 10, as `parseFloat` accumulates it. -/
def digitsToNat (cs : List Char) : Nat :=
  cs.foldl (fun a c => a * 10 + (c.toNat - 48)) 0

/-- Decimal part of JavaScript `parseFloat`: optional integer digits, then an
optional fraction introduced by a dot; trailing garbage is ignored; no digits
at all gives NaN. The sign has already been consumed by `parseFloat`. -/
def parseDecimal (cs : List Char) (neg : Bool) : JNum :=
  let intPart := cs.takeWhile Char.isDigit
  let rest := cs.dropWhile Char.isDigit
  let fracPart :=
    match rest with
    | '.' :: t => t.takeWhile Char.isDigit
    | _ => []
  if intPart.isEmpty && fracPart.isEmpty then JNum.nan
  else
    let mag : ℚ := (digitsToNat intPart : ℚ) + (digitsToNat fracPart : ℚ) / ((10 : ℚ) ^ fracPart.length)
    JNum.num (if neg then -mag else mag)

/-- JavaScript `parseFloat` applied to a possibly-missing string field:
`parseFloat(undefined)` is NaN; otherwise leading spaces and an optional sign
are consumed and the decimal prefix is parsed (NaN when there is none).
Exponent notation does not occur in the data handled here and is omitted. -/
def parseFloat : Option String → JNum
  | none => JNum.nan
  | some s =>
    match s.data.dropWhile (fun c => c == ' ') with
    | '-' :: t => parseDecimal t true
    | '+' :: t => parseDecimal t false
    | cs => parseDecimal cs false

/-- The HTTP request issued by `geocodeWithNominatim`: a GET whose query
string carries the free-text address (utils/geocode.js line 4-6). -/
structure GeocodeRequest where
  httpMethod : String
  query : String
deriving DecidableEq

/-- Request construction of utils/geocode.js lines 4-6: `fetch(url)` with no
options issues a GET; the URL embeds the encoded address as the `q` query. -/
def geocodeRequest (address : String) : GeocodeRequest :=
  { httpMethod := "GET", query := address }

/-- Response handling of `geocodeWithNominatim` (utils/geocode.js lines 2-14).
The input models the awaited response: `Except.error` for a network or JSON
error reaching the catch block, `Except.ok` for a parsed JSON array.
Empty array or error gives null (`none`); otherwise the first element's `lat`
and `lon` fields are parsed with `parseFloat`, latitude first. -/
def geocodeWithNominatim (resp : Except Unit (List GeoEntry)) : Option (JNum × JNum) :=
  match resp with
  | Except.error _ => none
  | Except.ok [] => none
  | Except.ok (e :: _) => some (parseFloat e.lat, parseFloat e.lon)

/-- `geocodePlace` of the commented MapComponent in utils/geocode.js (lines
136-147): returns null without fetching when the place string is empty
(`if (!place) return null`), otherwise behaves like `geocodeWithNominatim`
on the response (`if (!data?.[0]) return null`, catch gives null). -/
def geocodePlace (place : String) (resp : Except Unit (List GeoEntry)) : Option (JNum × JNum) :=
  if place = "" then none
  else
    match resp with
    | Except.error _ => none
    | Except.ok [] => none
    | Except.ok (e :: _) => some (parseFloat e.lat, parseFloat e.lon)

/-- Outcome of the platform geolocation call: a position fix with latitude,
longitude and an optional reported accuracy (`pos.coords.accuracy` may be
absent, hence the `?? 99999` in the source), or failure (permission denied,
timeout, unsupported), which invokes the error callback. -/
inductive DeviceFix
  | fix (lat lon : ℚ) (accuracy : Option ℚ)
  | locFailure
deriving DecidableEq

/-- The spec's tagging of an origin resolution; the tag names which branch of
the source's callback chain produced the coordinate. -/
inductive OriginResolution
  | DeviceObserved (c : JNum × JNum) (accuracy : ℚ)
  | HintGeocoded (c : JNum × JNum)
  | StaticFallback (c : JNum × JNum)
deriving DecidableEq

/-- Default `originFallback` prop of the commented MapComponent
(utils/geocode.js line 130): the Lagos region center. -/
def defaultOriginFallback : JNum × JNum := (JNum.num 6.5244, JNum.num 3.3792)

/-- The origin-resolution chain of the commented MapComponent
(utils/geocode.js lines 150-182), as one function of the geolocation outcome.

Success callback: `accuracy = pos.coords.accuracy ?? 99999`; when
`accuracy > 5000 && originHint` the hint is geocoded and
`setOrigin(hinted || cand)` runs, otherwise `setOrigin(cand)` with the raw
device candidate. Error callback: `setOrigin(hinted || originFallback)`
(`geocodePlace` returns null at once on an empty hint, issuing no request).

The second component records whether a geocoding HTTP request was issued:
true exactly when `geocodePlace` was reached with a non-empty place. -/
def resolve (fixOutcome : DeviceFix) (originHint : String)
    (geoResp : Except Unit (List GeoEntry)) (originFallback : JNum × JNum) :
    OriginResolution × Bool :=
  match fixOutcome with
  | DeviceFix.fix lat lon accOpt =>
    let cand : JNum × JNum := (JNum.num lat, JNum.num lon)
    let accuracy : ℚ := accOpt.getD 99999
    if 5000 < accuracy ∧ originHint ≠ "" then
      match geocodePlace originHint geoResp with
      | some hinted => (OriginResolution.HintGeocoded hinted, true)
      | none => (OriginResolution.DeviceObserved cand accuracy, true)
    else
      (OriginResolution.DeviceObserved cand accuracy, false)
  | DeviceFix.locFailure =>
    match geocodePlace originHint geoResp with
    | some hinted => (OriginResolution.HintGeocoded hinted, originHint ≠ "")
    | none => (OriginResolution.StaticFallback originFallback, originHint ≠ "")

/-- Validity of a coordinate pair per the data model: both components finite
(not NaN), latitude in [-90, 90], longitude in [-180, 180]. -/
def validCoordinate : JNum × JNum → Prop
  | (JNum.num lat, JNum.num lon) => -90 ≤ lat ∧ lat ≤ 90 ∧ -180 ≤ lon ∧ lon ≤ 180
  | _ => False

/-- Claim C5: for every device position report with reported accuracy at most
the 5000 m threshold (a missing accuracy counts as 99999), `resolve` returns
`DeviceObserved` carrying the raw device coordinate and the reported
accuracy, and no geocoding request is issued, whatever the hint. -/
theorem resolve_trusts_accurate_fix (lat lon : ℚ) (accOpt : Option ℚ)
    (hint : String) (geoResp : Except Unit (List GeoEntry)) (fb : JNum × JNum)
    (h : accOpt.getD 99999 ≤ 5000) :
    resolve (DeviceFix.fix lat lon accOpt) hint geoResp fb
      = (OriginResolution.DeviceObserved (JNum.num lat, JNum.num lon) (accOpt.getD 99999), false) := by
  have hacc : ¬ (5000 < accOpt.getD 99999 ∧ hint ≠ "") := fun hc => absurd h (not_le.mpr hc.1)
  simp only [resolve, if_neg hacc]

/-- Witness for C5 at the spec's example scenario: device reports
(6.60, 3.40) with accuracy 200 m and a non-empty hint. -/
theorem resolve_trusts_accurate_fix_witness :
    resolve (DeviceFix.fix 6.6 3.4 (some 200)) "Lagos hospital" (Except.ok []) defaultOriginFallback
      = (OriginResolution.DeviceObserved (JNum.num 6.6, JNum.num 3.4) 200, false) :=
  resolve_trusts_accurate_fix 6.6 3.4 (some 200) "Lagos hospital" (Except.ok []) defaultOriginFallback (by norm_num)

/-- Claim C6: when device location acquisition fails and the hint is unusable
(empty, or failing to geocode — both are exactly `geocodePlace` returning
none), `resolve` returns `StaticFallback` carrying the configured fallback
coordinate; `resolve` is total, so resolution never escapes as an error. -/
theorem resolve_total_failure_static_fallback (hint : String)
    (geoResp : Except Unit (List GeoEntry)) (fb : JNum × JNum)
    (h : geocodePlace hint geoResp = none) :
    (resolve DeviceFix.locFailure hint geoResp fb).1
      = OriginResolution.StaticFallback fb := by
  simp only [resolve, h]

/-- Witness for C6: no hint at all, with the configured default fallback. -/
theorem resolve_total_failure_static_fallback_witness :
    (resolve DeviceFix.locFailure "" (Except.ok []) defaultOriginFallback).1
      = OriginResolution.StaticFallback defaultOriginFallback :=
  resolve_total_failure_static_fallback "" (Except.ok []) defaultOriginFallback rfl

/-- Claim C8: the geocode operation issues an HTTP GET carrying the free-text
query; a non-empty JSON-array response yields the coordinate obtained by
`parseFloat` on the first element's lat and lon fields, in
latitude-longitude order; an empty array or a network error yields none
rather than an exception. -/
theorem geocode_response_contract (address : String) (resp : Except Unit (List GeoEntry)) :
    (geocodeRequest address).httpMethod = "GET"
    ∧ (geocodeRequest address).query = address
    ∧ (∀ e rest, resp = Except.ok (e :: rest) →
        geocodeWithNominatim resp = some (parseFloat e.lat, parseFloat e.lon))
    ∧ (resp = Except.ok [] → geocodeWithNominatim resp = none)
    ∧ (∀ u, resp = Except.error u → geocodeWithNominatim resp = none) := by
  refine ⟨rfl, rfl, ?_, ?_, ?_⟩
  · intro e rest he
    subst he
    rfl
  · intro he
    subst he
    rfl
  · intro u hu
    subst hu
    rfl

/-- Witness for C8: a concrete non-empty response whose first element parses
to the Lagos coordinate. -/
theorem geocode_response_contract_witness :
    geocodeWithNominatim (Except.ok [{ lat := some "6.5244", lon := some "3.3792" }])
      = some (parseFloat (some "6.5244"), parseFloat (some "3.3792"))
    ∧ parseFloat (some "6.5244") = JNum.num 6.5244 :=
  ⟨(geocode_response_contract "Lagos" (Except.ok [{ lat := some "6.5244", lon := some "3.3792" }])).2.2.1
      { lat := some "6.5244", lon := some "3.3792" } [] rfl,
    by
      rw [show parseFloat (some "6.5244") = JNum.num ((6 : ℚ) + 5244 / 10 ^ 4) from rfl]
      norm_num⟩

/-- Claim C10: a non-empty geocoder response whose first element lacks `lat`
and `lon` makes `geocodeWithNominatim` return a NaN pair instead of null;
that pair is not a valid coordinate (it fails the finiteness and range
requirement), and the resolver hands it on as the origin (`HintGeocoded`),
because a NaN pair is a truthy array in `setOrigin(hinted || ...)`. -/
theorem geocode_nan_coordinate_flow :
    geocodeWithNominatim (Except.ok [{ lat := none, lon := none }])
      = some (JNum.nan, JNum.nan)
    ∧ ¬ validCoordinate (JNum.nan, JNum.nan)
    ∧ (resolve DeviceFix.locFailure "Ikorodu" (Except.ok [{ lat := none, lon := none }]) defaultOriginFallback).1
      = OriginResolution.HintGeocoded (JNum.nan, JNum.nan) :=
  ⟨rfl, fun h => h, by decide⟩

/-- Marker role, distinguished in the source by the bound popup text
("You are here" / "Hospital"). -/
inductive MarkerRole
  | origin
  | dest
deriving DecidableEq

/-- A marker handle attached to the map surface. -/
structure Marker where
  role : MarkerRole
  pos : ℚ × ℚ
deriving DecidableEq

/-- A route overlay handle (the L.geoJSON layer) attached to the surface,
remembering the origin/destination query its data was fetched for. -/
structure Overlay where
  id : Nat
  qOrigin : ℚ × ℚ
  qDest : ℚ × ℚ
deriving DecidableEq

/-- An in-flight directions fetch: the getRoute closure captured the effect's
origin and destination; the id lets exactly this callback fire later. -/
structure PendingFetch where
  id : Nat
  qOrigin : ℚ × ℚ
  qDest : ℚ × ℚ
deriving DecidableEq

/-- State owned by one MapComponent mount: `mapRef`/`routeLayerRef` mirror the
two refs of MapComponent.jsx, `surfaceMarkers`/`overlays` are the handles
currently attached to the surface, `pending` the fetches in flight,
`mapsCreated`/`fitBoundsCount`/`teardowns` count L.map creations, fitBounds
calls and teardowns for the invariants below. -/
structure SessionState where
  mapRef : Option Nat
  mapsCreated : Nat
  surfaceMarkers : List Marker
  overlays : List Overlay
  routeLayerRef : Option Overlay
  pending : List PendingFetch
  fitBoundsCount : Nat
  teardowns : Nat
  nextId : Nat
deriving DecidableEq

/-- Fresh state at mount: both refs null, nothing attached, nothing pending. -/
def initState : SessionState :=
  { mapRef := none, mapsCreated := 0, surfaceMarkers := [], overlays := [],
    routeLayerRef := none, pending := [], fitBoundsCount := 0, teardowns := 0,
    nextId := 0 }

/-- Leaflet's `map.removeLayer(handle)` detaches that one layer object; object
identity is modelled by the unique handle id. -/
def removeLayer (ovs : List Overlay) (ov : Overlay) : List Overlay :=
  ovs.filter (fun o => o.id != ov.id)

/-- One run of the map effect of MapComponent.jsx (lines 25-86): nothing
happens unless both origin and destination are present; the map is created
only when `mapRef.current` is null (guard, lines 28-35); a marker is added
for each of origin and destination, with no removal of prior markers (lines
37-39); `getRoute()` starts a directions fetch whose closure captures this
run's origin and destination (lines 41-85). -/
def runEffect (st : SessionState) (origin destination : Option (ℚ × ℚ)) : SessionState :=
  match origin, destination with
  | some o, some d =>
    match st.mapRef with
    | none =>
      { st with mapRef := some st.nextId,
                mapsCreated := st.mapsCreated + 1,
                surfaceMarkers := st.surfaceMarkers
                  ++ [{ role := MarkerRole.origin, pos := o }, { role := MarkerRole.dest, pos := d }],
                pending := st.pending ++ [{ id := st.nextId + 1, qOrigin := o, qDest := d }],
                nextId := st.nextId + 2 }
    | some _ =>
      { st with surfaceMarkers := st.surfaceMarkers
                  ++ [{ role := MarkerRole.origin, pos := o }, { role := MarkerRole.dest, pos := d }],
                pending := st.pending ++ [{ id := st.nextId, qOrigin := o, qDest := d }],
                nextId := st.nextId + 1 }
  | _, _ => st

/-- Outcome of an awaited directions fetch, as seen by the getRoute
continuation: failure covers a thrown network error, a JSON parse error and a
non-ok response (all reach `console.error` and leave the handler), success a
usable route body. -/
inductive RouteResp
  | success
  | failure
deriving DecidableEq

/-- The getRoute continuation of MapComponent.jsx (lines 60-83), firing for
the in-flight fetch `fid`: a callback fires at most once (it is consumed from
`pending`); on failure the handler only logs and returns; on success it
removes the previously tracked route layer if present, attaches a new overlay
drawn from the closure's origin/destination, stores it in `routeLayerRef`,
and fits the viewport to it. There is no staleness or epoch check. -/
def resolveFetch (st : SessionState) (fid : Nat) (resp : RouteResp) : SessionState :=
  match st.pending.find? (fun f => f.id == fid) with
  | none => st
  | some f =>
    match resp with
    | RouteResp.failure => { st with pending := st.pending.filter (fun g => g.id != fid) }
    | RouteResp.success =>
      let remaining :=
        match st.routeLayerRef with
        | some ov => removeLayer st.overlays ov
        | none => st.overlays
      let newOv : Overlay := { id := st.nextId, qOrigin := f.qOrigin, qDest := f.qDest }
      { st with pending := st.pending.filter (fun g => g.id != fid),
                overlays := remaining ++ [newOv],
                routeLayerRef := some newOv,
                fitBoundsCount := st.fitBoundsCount + 1,
                nextId := st.nextId + 1 }

/-- Events observable during one mount of the component: an effect run with
the current props, a directions fetch resolving, and unmount. The effects of
MapComponent.jsx return no cleanup function, so unmount runs nothing. -/
inductive SessEvent
  | effect (origin destination : Option (ℚ × ℚ))
  | fetchResolved (fid : Nat) (resp : RouteResp)
  | unmount
deriving DecidableEq

/-- Event-loop step: single-threaded, one callback at a time. -/
def sessStep (st : SessionState) (e : SessEvent) : SessionState :=
  match e with
  | SessEvent.effect o d => runEffect st o d
  | SessEvent.fetchResolved fid r => resolveFetch st fid r
  | SessEvent.unmount => st

/-- The session state after a sequence of events from a fresh mount. -/
def runTrace (es : List SessEvent) : SessionState :=
  es.foldl sessStep initState

/-- One-shot appending of a single event to a trace. -/
theorem runTrace_snoc (es : List SessEvent) (e : SessEvent) :
    runTrace (es ++ [e]) = sessStep (runTrace es) e := by
  simp [runTrace, List.foldl_append]

/-- `resolveFetch` never touches the surface handle, its creation count, the
markers or the teardown count. -/
theorem resolveFetch_frame (st : SessionState) (fid : Nat) (r : RouteResp) :
    (resolveFetch st fid r).mapRef = st.mapRef
    ∧ (resolveFetch st fid r).mapsCreated = st.mapsCreated
    ∧ (resolveFetch st fid r).surfaceMarkers = st.surfaceMarkers
    ∧ (resolveFetch st fid r).teardowns = st.teardowns := by
  unfold resolveFetch
  cases st.pending.find? (fun f => f.id == fid) with
  | none => exact ⟨rfl, rfl, rfl, rfl⟩
  | some f =>
    cases r with
    | failure => exact ⟨rfl, rfl, rfl, rfl⟩
    | success => exact ⟨rfl, rfl, rfl, rfl⟩

/-- A run of the map effect never touches overlays or the route-layer ref. -/
theorem runEffect_overlay_frame (st : SessionState) (o d : Option (ℚ × ℚ)) :
    (runEffect st o d).overlays = st.overlays
    ∧ (runEffect st o d).routeLayerRef = st.routeLayerRef := by
  cases o with
  | none => exact ⟨rfl, rfl⟩
  | some oc =>
    cases d with
    | none => exact ⟨rfl, rfl⟩
    | some dc =>
      unfold runEffect
      cases st.mapRef with
      | none => exact ⟨rfl, rfl⟩
      | some m => exact ⟨rfl, rfl⟩

/-- The map-creation invariant: the creation count is 0 before the surface
exists and 1 from then on. -/
def MapOnceInv (st : SessionState) : Prop :=
  (st.mapRef = none → st.mapsCreated = 0) ∧ (st.mapRef ≠ none → st.mapsCreated = 1)

theorem mapOnceInv_init : MapOnceInv initState :=
  ⟨fun _ => rfl, fun h => absurd rfl h⟩

/-- Once the surface exists, an effect run keeps the same handle and creates
nothing (the `if (!mapRef.current)` guard). -/
theorem runEffect_mapRef_some (st : SessionState) (m : Nat) (o d : Option (ℚ × ℚ))
    (h : st.mapRef = some m) :
    (runEffect st o d).mapRef = some m ∧ (runEffect st o d).mapsCreated = st.mapsCreated := by
  cases o with
  | none => exact ⟨h, rfl⟩
  | some oc =>
    cases d with
    | none => exact ⟨h, rfl⟩
    | some dc =>
      simp [runEffect, h]

/-- An effect run with both inputs present leaves the surface existing. -/
theorem runEffect_both_mapRef_isSome (st : SessionState) (o d : ℚ × ℚ) :
    (runEffect st (some o) (some d)).mapRef ≠ none := by
  unfold runEffect
  cases hm : st.mapRef with
  | none => simp
  | some m => simp [hm]

theorem mapOnceInv_step (st : SessionState) (e : SessEvent) (h : MapOnceInv st) :
    MapOnceInv (sessStep st e) := by
  obtain ⟨h0, h1⟩ := h
  cases e with
  | unmount => exact ⟨h0, h1⟩
  | fetchResolved fid r =>
    show MapOnceInv (resolveFetch st fid r)
    obtain ⟨hm, hc, _, _⟩ := resolveFetch_frame st fid r
    rw [MapOnceInv, hm, hc]
    exact ⟨h0, h1⟩
  | effect o d =>
    show MapOnceInv (runEffect st o d)
    cases o with
    | none => exact ⟨h0, h1⟩
    | some oc =>
      cases d with
      | none => exact ⟨h0, h1⟩
      | some dc =>
        unfold runEffect
        cases hm : st.mapRef with
        | none =>
          refine ⟨fun hfalse => absurd hfalse (by simp), fun _ => ?_⟩
          simp [h0 hm]
        | some m =>
          refine ⟨fun hfalse => absurd hfalse (by simp [hm]), fun _ => ?_⟩
          simp [h1 (by simp [hm])]

theorem mapOnceInv_runTrace (es : List SessEvent) : MapOnceInv (runTrace es) := by
  suffices h : ∀ st, MapOnceInv st → MapOnceInv (es.foldl sessStep st) from
    h initState mapOnceInv_init
  induction es with
  | nil => exact fun st h => h
  | cons e t ih => exact fun st h => ih (sessStep st e) (mapOnceInv_step st e h)

/-- The overlay invariant: the layers attached to the surface are exactly the
one tracked by `routeLayerRef` (none before the first successful route). -/
def OverlayInv (st : SessionState) : Prop :=
  match st.routeLayerRef with
  | none => st.overlays = []
  | some ov => st.overlays = [ov]

theorem overlayInv_init : OverlayInv initState := rfl

theorem overlayInv_step (st : SessionState) (e : SessEvent) (h : OverlayInv st) :
    OverlayInv (sessStep st e) := by
  cases e with
  | unmount => exact h
  | effect o d =>
    show OverlayInv (runEffect st o d)
    obtain ⟨hov, href⟩ := runEffect_overlay_frame st o d
    have hiff : OverlayInv (runEffect st o d) ↔ OverlayInv st := by
      unfold OverlayInv
      rw [hov, href]
    exact hiff.mpr h
  | fetchResolved fid r =>
    show OverlayInv (resolveFetch st fid r)
    unfold resolveFetch
    cases hf : st.pending.find? (fun f => f.id == fid) with
    | none => exact h
    | some f =>
      cases r with
      | failure => exact h
      | success =>
        unfold OverlayInv
        show (match st.routeLayerRef with
              | some ov => removeLayer st.overlays ov
              | none => st.overlays) ++ [_] = [_]
        unfold OverlayInv at h
        cases hrf : st.routeLayerRef with
        | none =>
          rw [hrf] at h
          have hov : st.overlays = [] := h
          rw [hov]
          rfl
        | some ov =>
          rw [hrf] at h
          have hov : st.overlays = [ov] := h
          rw [hov]
          simp [removeLayer]

theorem overlayInv_runTrace (es : List SessEvent) : OverlayInv (runTrace es) := by
  suffices h : ∀ st, OverlayInv st → OverlayInv (es.foldl sessStep st) from
    h initState overlayInv_init
  induction es with
  | nil => exact fun st h => h
  | cons e t ih => exact fun st h => ih (sessStep st e) (overlayInv_step st e h)

/-- Claim C2: across every event sequence of a session lifetime the map
surface is created at most once; after an initialize (an effect run with a
destination and an origin present) followed by a second initialize with the
same inputs, exactly one surface has been created, and the second run keeps
the very same surface handle — origin/destination changes never recreate the
surface. -/
theorem surface_created_exactly_once :
    (∀ es, (runTrace es).mapsCreated ≤ 1)
    ∧ (∀ es (o d : ℚ × ℚ),
        (runTrace (es ++ [SessEvent.effect (some o) (some d),
                          SessEvent.effect (some o) (some d)])).mapsCreated = 1
        ∧ (runTrace (es ++ [SessEvent.effect (some o) (some d),
                            SessEvent.effect (some o) (some d)])).mapRef
            = (runTrace (es ++ [SessEvent.effect (some o) (some d)])).mapRef) := by
  constructor
  · intro es
    obtain ⟨h0, h1⟩ := mapOnceInv_runTrace es
    cases hm : (runTrace es).mapRef with
    | none => rw [h0 hm]; exact Nat.zero_le 1
    | some m => rw [h1 (by simp [hm])]
  · intro es o d
    have hsplit : es ++ [SessEvent.effect (some o) (some d), SessEvent.effect (some o) (some d)]
        = (es ++ [SessEvent.effect (some o) (some d)]) ++ [SessEvent.effect (some o) (some d)] := by
      simp
    rw [hsplit, runTrace_snoc, runTrace_snoc]
    have hinv1 : MapOnceInv (sessStep (runTrace es) (SessEvent.effect (some o) (some d))) :=
      mapOnceInv_step (runTrace es) (SessEvent.effect (some o) (some d)) (mapOnceInv_runTrace es)
    have hns : (sessStep (runTrace es) (SessEvent.effect (some o) (some d))).mapRef ≠ none :=
      runEffect_both_mapRef_isSome (runTrace es) o d
    cases hm : (sessStep (runTrace es) (SessEvent.effect (some o) (some d))).mapRef with
    | none => exact absurd hm hns
    | some m =>
      obtain ⟨hr, hc⟩ :=
        runEffect_mapRef_some (sessStep (runTrace es) (SessEvent.effect (some o) (some d)))
          m (some o) (some d) hm
      refine ⟨?_, ?_⟩
      · show (runEffect (sessStep (runTrace es) (SessEvent.effect (some o) (some d)))
            (some o) (some d)).mapsCreated = 1
        rw [hc]
        exact hinv1.2 hns
      · show (runEffect (sessStep (runTrace es) (SessEvent.effect (some o) (some d)))
            (some o) (some d)).mapRef = _
        rw [hr]

/-- Claim C3: at every observation point of every session trace, at most one
route overlay is attached to the surface — each successful outcome removes
the tracked previous overlay in the same callback before attaching its own. -/
theorem at_most_one_route_overlay (es : List SessEvent) :
    (runTrace es).overlays.length ≤ 1 := by
  have h := overlayInv_runTrace es
  unfold OverlayInv at h
  cases hrf : (runTrace es).routeLayerRef with
  | none =>
    rw [hrf] at h
    have hov : (runTrace es).overlays = [] := h
    rw [hov]
    exact Nat.zero_le 1
  | some ov =>
    rw [hrf] at h
    have hov : (runTrace es).overlays = [ov] := h
    rw [hov]
    simp

/-- Claim C7: a failed directions fetch reaches the handler as a well-formed
failure outcome (the try/catch and the res.ok check make the continuation
total) and its handling is confined: no overlay is added or removed, the
route-layer ref, the markers, the surface, its creation count and the
viewport-fit count are all untouched, and the session is not torn down — the
markers remain shown and, when no overlay existed, none exists after. -/
theorem route_failure_effect_confined (st : SessionState) (fid : Nat) :
    (resolveFetch st fid RouteResp.failure).overlays = st.overlays
    ∧ (resolveFetch st fid RouteResp.failure).routeLayerRef = st.routeLayerRef
    ∧ (resolveFetch st fid RouteResp.failure).surfaceMarkers = st.surfaceMarkers
    ∧ (resolveFetch st fid RouteResp.failure).mapRef = st.mapRef
    ∧ (resolveFetch st fid RouteResp.failure).mapsCreated = st.mapsCreated
    ∧ (resolveFetch st fid RouteResp.failure).fitBoundsCount = st.fitBoundsCount
    ∧ (resolveFetch st fid RouteResp.failure).teardowns = st.teardowns := by
  unfold resolveFetch
  cases st.pending.find? (fun f => f.id == fid) with
  | none => exact ⟨rfl, rfl, rfl, rfl, rfl, rfl, rfl⟩
  | some f => exact ⟨rfl, rfl, rfl, rfl, rfl, rfl, rfl⟩

/-- Claim C1 (code-bug evidence): the session has no epoch or staleness
check. In the trace update(o1,d); update(o2,d); the (o2,d) fetch resolves;
the (o1,d) fetch resolves late — the late callback removes the fresh (o2,d)
overlay and draws the superseded (o1,d) route, which stays visible, so the
overlay reflects the stale pair, contradicting the claimed discard of
superseded outcomes. -/
theorem routeRace_staleOutcomeRendered :
    (runTrace [SessEvent.effect (some (1, 1)) (some (3, 3)),
               SessEvent.effect (some (2, 2)) (some (3, 3)),
               SessEvent.fetchResolved 2 RouteResp.success,
               SessEvent.fetchResolved 1 RouteResp.success]).overlays
      = [{ id := 4, qOrigin := (1, 1), qDest := (3, 3) }]
    ∧ (runTrace [SessEvent.effect (some (1, 1)) (some (3, 3)),
                 SessEvent.effect (some (2, 2)) (some (3, 3)),
                 SessEvent.fetchResolved 2 RouteResp.success]).overlays
      = [{ id := 3, qOrigin := (2, 2), qDest := (3, 3) }] :=
  ⟨rfl, rfl⟩

/-- Claim C4 (code-bug evidence): the map effect returns no cleanup, so
unmount tears nothing down (teardown count stays 0, the surface handle
survives), and a route fetch still in flight at unmount mutates the rendering
state afterwards: the overlay set changes from empty to one overlay after the
unmount event. -/
theorem no_teardown_at_unmount :
    (runTrace [SessEvent.effect (some (1, 1)) (some (3, 3)),
               SessEvent.unmount,
               SessEvent.fetchResolved 1 RouteResp.success]).teardowns = 0
    ∧ (runTrace [SessEvent.effect (some (1, 1)) (some (3, 3)),
                 SessEvent.unmount]).overlays = []
    ∧ (runTrace [SessEvent.effect (some (1, 1)) (some (3, 3)),
                 SessEvent.unmount,
                 SessEvent.fetchResolved 1 RouteResp.success]).overlays
      = [{ id := 2, qOrigin := (1, 1), qDest := (3, 3) }]
    ∧ (runTrace [SessEvent.effect (some (1, 1)) (some (3, 3)),
                 SessEvent.unmount,
                 SessEvent.fetchResolved 1 RouteResp.success]).mapRef = some 0 :=
  ⟨rfl, rfl, rfl, rfl⟩

/-- Claim C9 (code-bug evidence): an update adds fresh origin and destination
markers without removing the prior ones, so after two updates with different
origins two origin-role markers (and two destination-role markers) are
attached at once, contradicting the claimed replace-before-add and the
at-most-one-marker-per-role bound. -/
theorem markers_accumulate_per_role :
    (runTrace [SessEvent.effect (some (1, 1)) (some (3, 3)),
               SessEvent.effect (some (2, 2)) (some (3, 3))]).surfaceMarkers
      = [{ role := MarkerRole.origin, pos := (1, 1) },
         { role := MarkerRole.dest, pos := (3, 3) },
         { role := MarkerRole.origin, pos := (2, 2) },
         { role := MarkerRole.dest, pos := (3, 3) }]
    ∧ ((runTrace [SessEvent.effect (some (1, 1)) (some (3, 3)),
                  SessEvent.effect (some (2, 2)) (some (3, 3))]).surfaceMarkers.countP
        (fun m => decide (m.role = MarkerRole.origin))) = 2 :=
  ⟨rfl, rfl⟩
